import Mathlib

/-!
Verification of the CloudFront storage middleware
(`registry/storage/driver/middleware/cloudfront/middleware.go`).

Go strings are embedded as `List Char`, Go's `error` as a message string,
`time.Duration` and time instants as `Int` (nanoseconds), and Go maps of
options as association lists.  External collaborators whose source is not
part of this module (`os.ReadFile`, `pem.Decode`, `x509.ParsePKCS1PrivateKey`,
`url.Parse`, `time.ParseDuration`, `newAWSIPs`, `eligibleForS3`, the URL
signer and the wrapped storage driver) are abstracted as parameters, so every
theorem below holds for all of their behaviours.
-/

namespace CloudFront

/-- Go strings, embedded as lists of characters. -/
abbrev Str := List Char

/-- Conversion from a Lean string literal to the embedded string type. -/
def str (s : String) : Str := s.data

/-- Go `error` values, represented by their message. -/
abbrev GoError := Str

/-- A value stored in the Go `map[string]interface{}` options map:
a string, a `time.Duration`, or any other dynamic type. -/
inductive OptVal where
  | str (s : Str)
  | dur (d : Int)
  | other
deriving DecidableEq

/-- The options map passed to the middleware constructor. -/
abbrev Options := List (Str × OptVal)

/-- Go map lookup `options[k]` (first binding wins). -/
def lookupOpt (options : Options) (k : Str) : Option OptVal :=
  match options with
  | [] => none
  | (k', v) :: rest => if k' = k then some v else lookupOpt rest k

/-- Go map update `options[k] = v`. -/
def insertOpt (options : Options) (k : Str) (v : OptVal) : Options :=
  (k, v) :: options

/-- Go `strings.Contains s pat`. -/
def containsSub : Str → Str → Bool
  | [], pat => pat.isEmpty
  | c :: rest, pat => pat.isPrefixOf (c :: rest) || containsSub rest pat

/-- Go `strings.HasSuffix s suf`. -/
def goHasSuffix (s suf : Str) : Bool := suf.isSuffixOf s

/-- Go `unicode.IsSpace` restricted to the ASCII whitespace characters. -/
def goIsSpace (c : Char) : Bool :=
  c = ' ' || c = '\t' || c = '\n' || c = '\r' || c = '\x0b' || c = '\x0c'

/-- Go `strings.TrimSpace`. -/
def trimSpace (s : Str) : Str :=
  ((s.dropWhile goIsSpace).reverse.dropWhile goIsSpace).reverse

/-- Go `strings.ToLower` (character-wise). -/
def toLowerStr (s : Str) : Str := s.map Char.toLower

/-- Go `strings.Split s ","`. -/
def splitOnComma : Str → List Str
  | [] => [[]]
  | c :: rest =>
    if c = ',' then [] :: splitOnComma rest
    else
      match splitOnComma rest with
      | [] => [[c]]
      | g :: gs => (c :: g) :: gs

/-- One nanosecond-denominated minute (`time.Minute`). -/
def minuteNs : Int := 60 * 1000000000

/-- The private key parsed from the PEM file
(`x509.ParsePKCS1PrivateKey` result, kept abstract). -/
structure PrivateKey where
  material : Str
deriving DecidableEq

/-- The CloudFront URL signer (`sign.NewURLSigner(keypairID, privateKey)`). -/
structure URLSigner where
  keyPairID : Str
  privateKey : PrivateKey
deriving DecidableEq

/-- Modelled from the spec: the range-set object produced by `newAWSIPs`
(the `awsIPs` type lives outside this module's source; only its identity,
`nil` versus non-`nil`, and its role as input to `eligibleForS3` matter
here).  It records the region filter it was built with. -/
structure AWSIPs where
  regions : List Str

/-- An incoming HTTP request, reduced to the data this middleware reads. -/
structure Request where
  remoteAddr : Str

/-- Modelled from the spec: the storage-driver interface boundary (spec §6).
The wrapped store exposes a redirect-URL operation used as the fallback
path, optionally a capability to derive an edge-cacheable key from a
content path (`S3BucketKeyer`, present iff `s3BucketKey` is `some`), and
its remaining operations, which this middleware never interprets and which
are therefore represented abstractly, indexed by operation name and
argument list. -/
structure StorageDriver where
  redirectURL : Request → Str → Except GoError Str
  s3BucketKey : Option (Str → Str)
  otherOp : Str → List Str → Except GoError Str

/-- The `cloudFrontStorageMiddleware` struct. -/
structure Middleware where
  storageDriver : StorageDriver
  awsIPs : Option AWSIPs
  urlSigner : URLSigner
  baseURL : Str
  duration : Int

/-- Request-time external collaborators: the origin-eligibility classifier
`eligibleForS3` (defined outside this module's source), the signer's `Sign`
method, and the current clock reading `time.Now()`. -/
structure RequestEnv where
  eligibleForS3 : Request → Option AWSIPs → Bool
  sign : URLSigner → Str → Int → Except GoError Str
  now : Int

/-- The method `cloudFrontStorageMiddleware.RedirectURL` (middleware.go lines 215-233):
if the wrapped driver does not implement `S3BucketKeyer`, or the request is
eligible for direct S3 access, delegate to the wrapped driver's
`RedirectURL`; otherwise sign `baseURL + S3BucketKey(path)` with expiry
`time.Now().Add(duration)`. -/
def RedirectURL (env : RequestEnv) (lh : Middleware) (r : Request) (path : Str) :
    Except GoError Str :=
  match lh.storageDriver.s3BucketKey with
  | none => lh.storageDriver.redirectURL r path
  | some keyer =>
    if env.eligibleForS3 r lh.awsIPs then
      lh.storageDriver.redirectURL r path
    else
      match env.sign lh.urlSigner (lh.baseURL ++ keyer path) (env.now + lh.duration) with
      | .error e => .error e
      | .ok cfURL => .ok cfURL

/-- The edge key the middleware would use for a path: the wrapped driver's
`S3BucketKey` when the capability is present. -/
def middlewareKey (lh : Middleware) (path : Str) : Str :=
  match lh.storageDriver.s3BucketKey with
  | none => []
  | some keyer => keyer path

/-- The middleware viewed as a storage driver: Go struct embedding promotes
every method of the wrapped driver except the overridden `RedirectURL`. -/
def asDriver (env : RequestEnv) (m : Middleware) : StorageDriver where
  redirectURL := fun r path => RedirectURL env m r path
  s3BucketKey := m.storageDriver.s3BucketKey
  otherOp := m.storageDriver.otherOp

/-- Construction-time external collaborators: the file system, the PEM and
PKCS1 decoders, `url.Parse` (returning `some` error on failure),
`time.ParseDuration`, the `newAWSIPs` constructor (defined outside this
module's source) and the package-level defaults `defaultUpdateFrequency`
and `defaultIPRangesURL` (likewise defined outside this module's source). -/
structure ConstructEnv where
  readFile : Str → Except GoError Str
  pemDecode : Str → Option Str
  parsePKCS1 : Str → Except GoError PrivateKey
  urlParseErr : Str → Option GoError
  parseGoDuration : Str → Except GoError Int
  mkAWSIPs : Str → Int → Option (List Str) → Except GoError AWSIPs
  defUpdateFrequency : Int
  defIPRangesURL : Str

/-- Normalization of the `baseurl` option (middleware.go lines 70-75):
prepend `https://` when no `://` occurs, then append a trailing `/` when
missing. -/
def normalizeBaseURL (s : Str) : Str :=
  let withScheme := if containsSub s (str "://") then s else str "https://" ++ s
  if goHasSuffix withScheme (str "/") then withScheme else withScheme ++ str "/"

/-- Parsing of the `baseurl` option (middleware.go lines 61-78). -/
def parseBaseURL (env : ConstructEnv) (options : Options) : Except GoError Str :=
  match lookupOpt options (str "baseurl") with
  | none => .error (str "no baseurl provided")
  | some (.str s) =>
    let baseURL := normalizeBaseURL s
    match env.urlParseErr baseURL with
    | some e => .error (str "invalid baseurl: " ++ e)
    | none => .ok baseURL
  | some _ => .error (str "baseurl must be a string")

/-- Parsing of the `privatekey` option (middleware.go lines 80-88). -/
def parsePrivateKeyPath (options : Options) : Except GoError Str :=
  match lookupOpt options (str "privatekey") with
  | none => .error (str "no privatekey provided")
  | some (.str s) => .ok s
  | some _ => .error (str "privatekey must be a string")

/-- Parsing of the `keypairid` option (middleware.go lines 90-98). -/
def parseKeypairID (options : Options) : Except GoError Str :=
  match lookupOpt options (str "keypairid") with
  | none => .error (str "no keypairid provided")
  | some (.str s) => .ok s
  | some _ => .error (str "keypairid must be a string")

/-- Reading the key file and building the signer (middleware.go
lines 100-114). -/
def loadURLSigner (env : ConstructEnv) (pkPath keypairID : Str) :
    Except GoError URLSigner :=
  match env.readFile pkPath with
  | .error e => .error (str "failed to read privatekey file: " ++ e)
  | .ok pkBytes =>
    match env.pemDecode pkBytes with
    | none => .error (str "failed to decode private key as an rsa private key")
    | some block =>
      match env.parsePKCS1 block with
      | .error e => .error e
      | .ok privateKey => .ok ⟨keypairID, privateKey⟩

/-- Parsing of the `duration` option (middleware.go lines 116-129): default
20 minutes, a `time.Duration` value is taken as is, a string is parsed, and
a value of any other dynamic type leaves the default in place. -/
def parseDurationOpt (env : ConstructEnv) (options : Options) : Except GoError Int :=
  match lookupOpt options (str "duration") with
  | none => .ok (20 * minuteNs)
  | some (.dur d) => .ok d
  | some (.str s) =>
    match env.parseGoDuration s with
    | .error e => .error (str "invalid duration: " ++ e)
    | .ok d => .ok d
  | some .other => .ok (20 * minuteNs)

/-- Parsing of the `updatefrequency` option (middleware.go lines 131-149):
when the legacy misspelled key `updatefrenquency` is present its value
overwrites `updatefrequency` and a deprecation warning is logged (the
returned boolean).  The value is then handled like `duration`: default,
`time.Duration` as is, string parsed, other types ignored. -/
def parseUpdateFrequency (env : ConstructEnv) (options : Options) :
    Bool × Except GoError Int :=
  let warned := (lookupOpt options (str "updatefrenquency")).isSome
  let options :=
    match lookupOpt options (str "updatefrenquency") with
    | some v => insertOpt options (str "updatefrequency") v
    | none => options
  let parsed :=
    match lookupOpt options (str "updatefrequency") with
    | none => .ok env.defUpdateFrequency
    | some (.dur d) => .ok d
    | some (.str s) =>
      match env.parseGoDuration s with
      | .error e => .error (str "invalid updatefrequency: " ++ e)
      | .ok d => .ok d
    | some .other => .ok env.defUpdateFrequency
  (warned, parsed)

/-- Parsing of the `iprangesurl` option (middleware.go lines 151-159). -/
def parseIPRangesURL (env : ConstructEnv) (options : Options) : Except GoError Str :=
  match lookupOpt options (str "iprangesurl") with
  | none => .ok env.defIPRangesURL
  | some (.str s) => .ok s
  | some _ => .error (str "iprangesurl must be a string")

/-- Parsing of the `ipfilteredby` and `awsregion` options (middleware.go
lines 161-196).  Returns the optional range set, `none` meaning filtering
is disabled. -/
def parseIPFilter (env : ConstructEnv) (options : Options)
    (updateFrequency : Int) (ipRangesURL : Str) : Except GoError (Option AWSIPs) :=
  match lookupOpt options (str "ipfilteredby") with
  | none => .ok none
  | some (.str ipFilteredBy) =>
    let v := toLowerStr (trimSpace ipFilteredBy)
    if v = str "" ∨ v = str "none" then .ok none
    else if v = str "aws" then
      match env.mkAWSIPs ipRangesURL updateFrequency none with
      | .error e => .error e
      | .ok a => .ok (some a)
    else if v = str "awsregion" then
      match lookupOpt options (str "awsregion") with
      | none => .error (str "awsRegion is not defined")
      | some (.str regions) =>
        let awsRegion := (splitOnComma regions).map fun x => toLowerStr (trimSpace x)
        match env.mkAWSIPs ipRangesURL updateFrequency (some awsRegion) with
        | .error e => .error e
        | .ok a => .ok (some a)
      | some _ =>
        .error (str "awsRegion must be a comma separated string of valid aws regions")
    else .error (str "ipfilteredby only allows a string the following value: none|aws|awsregion")
  | some _ =>
    .error (str "ipfilteredby only allows a string with the following value: none|aws|awsregion")

/-- The constructor `newCloudFrontStorageMiddleware` (middleware.go lines 60-205), with the
option-parsing phases in source order. -/
def newCloudFrontStorageMiddleware (env : ConstructEnv)
    (storageDriver : StorageDriver) (options : Options) : Except GoError Middleware :=
  match parseBaseURL env options with
  | .error e => .error e
  | .ok baseURL =>
    match parsePrivateKeyPath options with
    | .error e => .error e
    | .ok pkPath =>
      match parseKeypairID options with
      | .error e => .error e
      | .ok keypairID =>
        match loadURLSigner env pkPath keypairID with
        | .error e => .error e
        | .ok urlSigner =>
          match parseDurationOpt env options with
          | .error e => .error e
          | .ok duration =>
            match (parseUpdateFrequency env options).2 with
            | .error e => .error e
            | .ok updateFrequency =>
              match parseIPRangesURL env options with
              | .error e => .error e
              | .ok ipRangesURL =>
                match parseIPFilter env options updateFrequency ipRangesURL with
                | .error e => .error e
                | .ok awsIPs =>
                  .ok { storageDriver := storageDriver
                        awsIPs := awsIPs
                        urlSigner := urlSigner
                        baseURL := baseURL
                        duration := duration }

/-- Whether an `Except` result is an error. -/
def isErr : Except GoError α → Bool
  | .error _ => true
  | .ok _ => false

/-- The base URL stored in a successfully constructed middleware. -/
def resultBaseURL : Except GoError Middleware → Option Str
  | .ok m => some m.baseURL
  | .error _ => none

/-- The signed-URL expiry duration stored in a successfully constructed
middleware. -/
def resultDuration : Except GoError Middleware → Option Int
  | .ok m => some m.duration
  | .error _ => none

/-- The optional range set stored in a successfully constructed middleware. -/
def resultAWSIPs : Except GoError Middleware → Option (Option AWSIPs)
  | .ok m => some m.awsIPs
  | .error _ => none

/-- Whether an options-map lookup found a string value. -/
def isStringOpt (options : Options) (k : Str) : Bool :=
  match lookupOpt options k with
  | some (.str _) => true
  | _ => false

/-- Whether an options-map lookup found a value of a non-string type. -/
def isNonStringOpt (options : Options) (k : Str) : Bool :=
  match lookupOpt options k with
  | some (.str _) => false
  | some _ => true
  | none => false

/-- A request-time signer environment that never fails. -/
def signerNeverFails (env : RequestEnv) : Prop :=
  ∀ s u t, isErr (env.sign s u t) = false

section Fixtures

/-- The identity edge-key function used by the sample keyed driver. -/
def idKey : Str → Str := fun p => p

/-- A sample wrapped driver that implements `S3BucketKeyer`. -/
def sdKeyed : StorageDriver where
  redirectURL := fun _ p => .ok (str "s3://" ++ p)
  s3BucketKey := some idKey
  otherOp := fun op args => .ok (args.foldl (fun a b => a ++ b) op)

/-- A sample wrapped driver without the `S3BucketKeyer` capability. -/
def sdNoKey : StorageDriver where
  redirectURL := fun _ p => .ok (str "origin/" ++ p)
  s3BucketKey := none
  otherOp := fun op args => .ok (args.foldl (fun a b => a ++ b) op)

/-- A sample wrapped driver whose own `RedirectURL` always fails. -/
def sdFailing : StorageDriver where
  redirectURL := fun _ _ => .error (str "origin unavailable")
  s3BucketKey := none
  otherOp := fun op _ => .ok op

/-- A sample URL signer value. -/
def signer0 : URLSigner := ⟨str "KEYPAIR", ⟨str "PEMBYTES"⟩⟩

/-- A sample middleware over the keyed driver, filtering disabled. -/
def mwEdge : Middleware where
  storageDriver := sdKeyed
  awsIPs := none
  urlSigner := signer0
  baseURL := str "https://cf.example.com/"
  duration := 20 * minuteNs

/-- A sample middleware over the capability-less driver, with a populated
range set. -/
def mwNoKey : Middleware where
  storageDriver := sdNoKey
  awsIPs := some ⟨[str "us-east-1"]⟩
  urlSigner := signer0
  baseURL := str "https://cf.example.com/"
  duration := 20 * minuteNs

/-- A sample middleware over the failing driver. -/
def mwFailing : Middleware where
  storageDriver := sdFailing
  awsIPs := none
  urlSigner := signer0
  baseURL := str "https://cf.example.com/"
  duration := 20 * minuteNs

/-- A sample request. -/
def req1 : Request := ⟨str "203.0.113.7:4711"⟩

/-- A sample content path. -/
def pathAB : Str := str "docker/registry/v2/blobs/a/b"

/-- A request environment classifying every origin as far from S3, with a
signer that tags the URL with the key-pair id. -/
def renvEdge : RequestEnv where
  eligibleForS3 := fun _ _ => false
  sign := fun s u _ => .ok (u ++ str "?sig=" ++ s.keyPairID)
  now := 1700000000000000000

/-- A request environment classifying every origin as close to S3. -/
def renvOrigin : RequestEnv where
  eligibleForS3 := fun _ _ => true
  sign := fun s u _ => .ok (u ++ str "?sig=" ++ s.keyPairID)
  now := 1700000000000000000

/-- A request environment whose signer always fails. -/
def renvFailSign : RequestEnv where
  eligibleForS3 := fun _ _ => false
  sign := fun _ _ _ => .error (str "sign fail")
  now := 1700000000000000000

end Fixtures

/-- A construct-time environment in which every external call succeeds. -/
def envC : ConstructEnv where
  readFile := fun _ => .ok (str "PEMBYTES")
  pemDecode := fun b => some b
  parsePKCS1 := fun b => .ok ⟨b⟩
  urlParseErr := fun _ => none
  parseGoDuration := fun _ => .ok (30 * minuteNs)
  mkAWSIPs := fun _ _ rs => .ok ⟨rs.getD []⟩
  defUpdateFrequency := 12 * 60 * minuteNs
  defIPRangesURL := str "https://ip-ranges.amazonaws.com/ip-ranges.json"

/-- A well-formed options map with the three required keys. -/
def optsOK : Options :=
  [(str "baseurl", .str (str "cf.example.com")),
   (str "privatekey", .str (str "/etc/cf/key.pem")),
   (str "keypairid", .str (str "KEYPAIR"))]

/-- An options map missing `baseurl`. -/
def optsNoBase : Options :=
  [(str "privatekey", .str (str "/etc/cf/key.pem")),
   (str "keypairid", .str (str "KEYPAIR"))]

/-- An options map whose `privatekey` is bound to a non-string value. -/
def optsBadPK : Options :=
  [(str "baseurl", .str (str "cf.example.com")),
   (str "privatekey", .dur 5),
   (str "keypairid", .str (str "KEYPAIR"))]

/-- An options map missing `keypairid`. -/
def optsNoKP : Options :=
  [(str "baseurl", .str (str "cf.example.com")),
   (str "privatekey", .str (str "/etc/cf/key.pem"))]

/-- Looking up the key just inserted returns the inserted value. -/
theorem lookupOpt_cons_self (o : Options) (k : Str) (v : OptVal) :
    lookupOpt ((k, v) :: o) k = some v := by
  simp [lookupOpt]

/-- Looking up a different key skips the inserted binding. -/
theorem lookupOpt_cons_ne (o : Options) (k k' : Str) (v : OptVal) (h : k' ≠ k) :
    lookupOpt ((k', v) :: o) k = lookupOpt o k := by
  simp [lookupOpt, h]

/-- When `baseurl` is absent or non-string, `parseBaseURL` errors. -/
theorem parseBaseURL_err (env : ConstructEnv) (options : Options)
    (h : isStringOpt options (str "baseurl") = false) :
    isErr (parseBaseURL env options) = true := by
  unfold isStringOpt at h
  unfold parseBaseURL
  cases hl : lookupOpt options (str "baseurl") with
  | none => rfl
  | some v =>
    rw [hl] at h
    cases v with
    | str s => simp at h
    | dur d => rfl
    | other => rfl

/-- When `privatekey` is absent or non-string, `parsePrivateKeyPath`
errors. -/
theorem parsePrivateKeyPath_err (options : Options)
    (h : isStringOpt options (str "privatekey") = false) :
    isErr (parsePrivateKeyPath options) = true := by
  unfold isStringOpt at h
  unfold parsePrivateKeyPath
  cases hl : lookupOpt options (str "privatekey") with
  | none => rfl
  | some v =>
    rw [hl] at h
    cases v with
    | str s => simp at h
    | dur d => rfl
    | other => rfl

/-- When `keypairid` is absent or non-string, `parseKeypairID` errors. -/
theorem parseKeypairID_err (options : Options)
    (h : isStringOpt options (str "keypairid") = false) :
    isErr (parseKeypairID options) = true := by
  unfold isStringOpt at h
  unfold parseKeypairID
  cases hl : lookupOpt options (str "keypairid") with
  | none => rfl
  | some v =>
    rw [hl] at h
    cases v with
    | str s => simp at h
    | dur d => rfl
    | other => rfl

/-- Anatomy of a successful construction: each parsing phase succeeded and
its result is the one stored in the middleware. -/
theorem build_ok_fields (env : ConstructEnv) (sd : StorageDriver)
    (options : Options) (m : Middleware)
    (h : newCloudFrontStorageMiddleware env sd options = .ok m) :
    parseBaseURL env options = .ok m.baseURL ∧
    parseDurationOpt env options = .ok m.duration ∧
    m.storageDriver = sd ∧
    ∃ pkPath keypairID uf urlR,
      parsePrivateKeyPath options = .ok pkPath ∧
      parseKeypairID options = .ok keypairID ∧
      (parseUpdateFrequency env options).2 = .ok uf ∧
      parseIPRangesURL env options = .ok urlR ∧
      parseIPFilter env options uf urlR = .ok m.awsIPs := by
  unfold newCloudFrontStorageMiddleware at h
  cases hb : parseBaseURL env options with
  | error e => rw [hb] at h; exact Except.noConfusion h
  | ok baseURL =>
  rw [hb] at h
  dsimp only at h
  cases hp : parsePrivateKeyPath options with
  | error e => rw [hp] at h; exact Except.noConfusion h
  | ok pkPath =>
  rw [hp] at h
  dsimp only at h
  cases hkp : parseKeypairID options with
  | error e => rw [hkp] at h; exact Except.noConfusion h
  | ok keypairID =>
  rw [hkp] at h
  dsimp only at h
  cases hsg : loadURLSigner env pkPath keypairID with
  | error e => rw [hsg] at h; exact Except.noConfusion h
  | ok urlSigner =>
  rw [hsg] at h
  dsimp only at h
  cases hd : parseDurationOpt env options with
  | error e => rw [hd] at h; exact Except.noConfusion h
  | ok duration =>
  rw [hd] at h
  dsimp only at h
  cases hu : (parseUpdateFrequency env options).2 with
  | error e => rw [hu] at h; exact Except.noConfusion h
  | ok updateFrequency =>
  rw [hu] at h
  dsimp only at h
  cases hurl : parseIPRangesURL env options with
  | error e => rw [hurl] at h; exact Except.noConfusion h
  | ok ipRangesURL =>
  rw [hurl] at h
  dsimp only at h
  cases hip : parseIPFilter env options updateFrequency ipRangesURL with
  | error e => rw [hip] at h; exact Except.noConfusion h
  | ok awsIPs =>
  rw [hip] at h
  dsimp only at h
  injection h with h'
  subst h'
  exact ⟨rfl, rfl, rfl, pkPath, keypairID, updateFrequency, ipRangesURL,
    rfl, rfl, rfl, rfl, hip⟩

/-- Claim C4: when `baseurl`, `privatekey` or `keypairid` is absent or
bound to a non-string value, construction fails. -/
theorem construction_requires_options (env : ConstructEnv)
    (sd : StorageDriver) (options : Options)
    (h : isStringOpt options (str "baseurl") = false ∨
         isStringOpt options (str "privatekey") = false ∨
         isStringOpt options (str "keypairid") = false) :
    isErr (newCloudFrontStorageMiddleware env sd options) = true := by
  cases hb : newCloudFrontStorageMiddleware env sd options with
  | error e => rfl
  | ok m =>
    exfalso
    obtain ⟨hbase, -, -, pkPath, keypairID, uf, urlR, hpk, hkp, -, -, -⟩ :=
      build_ok_fields env sd options m hb
    rcases h with h | h | h
    · have := parseBaseURL_err env options h
      rw [hbase] at this
      exact Bool.noConfusion this
    · have := parsePrivateKeyPath_err options h
      rw [hpk] at this
      exact Bool.noConfusion this
    · have := parseKeypairID_err options h
      rw [hkp] at this
      exact Bool.noConfusion this

/-- Witness for C4: construction fails on a map missing `baseurl`, on one
whose `privatekey` is not a string, and on one missing `keypairid`. -/
theorem construction_requires_options_witness :
    isErr (newCloudFrontStorageMiddleware envC sdKeyed optsNoBase) = true ∧
    isErr (newCloudFrontStorageMiddleware envC sdKeyed optsBadPK) = true ∧
    isErr (newCloudFrontStorageMiddleware envC sdKeyed optsNoKP) = true :=
  ⟨construction_requires_options envC sdKeyed optsNoBase (Or.inl (by decide)),
   construction_requires_options envC sdKeyed optsBadPK (Or.inr (Or.inl (by decide))),
   construction_requires_options envC sdKeyed optsNoKP (Or.inr (Or.inr (by decide)))⟩

/-- Matching an `Except` value back into itself is the identity. -/
theorem except_match_id (x : Except GoError Str) :
    (match x with | .error e => Except.error e | .ok u => Except.ok u) = x := by
  cases x <;> rfl

/-- The normalized base URL always ends in a slash. -/
theorem normalize_ends_slash (s : Str) :
    goHasSuffix (normalizeBaseURL s) (str "/") = true := by
  unfold normalizeBaseURL
  set t := if containsSub s (str "://") then s else str "https://" ++ s with ht
  by_cases hs : goHasSuffix t (str "/") = true
  · rw [if_pos hs]
    exact hs
  · rw [if_neg hs]
    unfold goHasSuffix
    rw [List.isSuffixOf_iff_suffix]
    exact List.suffix_append t (str "/")

/-- A successful `parseBaseURL` on a string option returns exactly the
normalized input. -/
theorem parseBaseURL_ok_val (env : ConstructEnv) (options : Options)
    (s b : Str) (hl : lookupOpt options (str "baseurl") = some (.str s))
    (h : parseBaseURL env options = .ok b) : b = normalizeBaseURL s := by
  unfold parseBaseURL at h
  rw [hl] at h
  dsimp only at h
  cases hu : env.urlParseErr (normalizeBaseURL s) with
  | some e => rw [hu] at h; exact Except.noConfusion h
  | none =>
    rw [hu] at h
    injection h with h'
    exact h'.symm

/-- Claim C5: a string `baseurl` accepted by construction is stored
normalized — `https://` is prepended when no `://` occurs and a trailing
`/` is appended when missing — and the stored value always ends in `/`. -/
theorem baseurl_normalized (env : ConstructEnv) (sd : StorageDriver)
    (options : Options) (s : Str)
    (h : lookupOpt options (str "baseurl") = some (.str s)) :
    (isErr (newCloudFrontStorageMiddleware env sd options) = true ∨
     resultBaseURL (newCloudFrontStorageMiddleware env sd options) =
       some (normalizeBaseURL s)) ∧
    goHasSuffix (normalizeBaseURL s) (str "/") = true := by
  refine ⟨?_, normalize_ends_slash s⟩
  cases hb : newCloudFrontStorageMiddleware env sd options with
  | error e => exact Or.inl rfl
  | ok m =>
    right
    obtain ⟨hbase, -⟩ := build_ok_fields env sd options m hb
    have hval := parseBaseURL_ok_val env options s m.baseURL h hbase
    show some m.baseURL = some (normalizeBaseURL s)
    rw [hval]

/-- Witness for C5: the sample options store base URL
`https://cf.example.com/`. -/
theorem baseurl_normalized_witness :
    (isErr (newCloudFrontStorageMiddleware envC sdKeyed optsOK) = true ∨
     resultBaseURL (newCloudFrontStorageMiddleware envC sdKeyed optsOK) =
       some (normalizeBaseURL (str "cf.example.com"))) ∧
    goHasSuffix (normalizeBaseURL (str "cf.example.com")) (str "/") = true :=
  baseurl_normalized envC sdKeyed optsOK (str "cf.example.com") (by decide)

/-- When the `duration` option is absent, parsing yields the 20-minute
default. -/
theorem parseDurationOpt_default (env : ConstructEnv) (options : Options)
    (h : lookupOpt options (str "duration") = none) :
    parseDurationOpt env options = .ok (20 * minuteNs) := by
  unfold parseDurationOpt
  rw [h]

/-- Claim C6: without a `duration` option the stored expiry duration is 20
minutes, and on the signed-edge path the expiry instant handed to the
signer is always the current time plus the stored duration. -/
theorem duration_default_and_expiry (env : ConstructEnv) (sd : StorageDriver)
    (options : Options) (renv : RequestEnv) (lh : Middleware) (r : Request)
    (p : Str) (hd : lookupOpt options (str "duration") = none)
    (hk : lh.storageDriver.s3BucketKey.isSome = true)
    (he : renv.eligibleForS3 r lh.awsIPs = false) :
    (isErr (newCloudFrontStorageMiddleware env sd options) = true ∨
     resultDuration (newCloudFrontStorageMiddleware env sd options) =
       some (20 * minuteNs)) ∧
    RedirectURL renv lh r p =
      renv.sign lh.urlSigner (lh.baseURL ++ middlewareKey lh p)
        (renv.now + lh.duration) := by
  constructor
  · cases hb : newCloudFrontStorageMiddleware env sd options with
    | error e => exact Or.inl rfl
    | ok m =>
      right
      obtain ⟨-, hdur, -⟩ := build_ok_fields env sd options m hb
      rw [parseDurationOpt_default env options hd] at hdur
      injection hdur with h'
      show some m.duration = some (20 * minuteNs)
      rw [h']
  · cases hk' : lh.storageDriver.s3BucketKey with
    | none => rw [hk'] at hk; exact Bool.noConfusion hk
    | some keyer =>
      simp [RedirectURL, middlewareKey, hk', he, except_match_id]

/-- Witness for C6: the sample options carry no `duration` key, the built
middleware stores twenty minutes, and a concrete signed redirect uses
`now + duration`. -/
theorem duration_default_and_expiry_witness :
    (isErr (newCloudFrontStorageMiddleware envC sdKeyed optsOK) = true ∨
     resultDuration (newCloudFrontStorageMiddleware envC sdKeyed optsOK) =
       some (20 * minuteNs)) ∧
    RedirectURL renvEdge mwEdge req1 pathAB =
      renvEdge.sign mwEdge.urlSigner (mwEdge.baseURL ++ middlewareKey mwEdge pathAB)
        (renvEdge.now + mwEdge.duration) :=
  duration_default_and_expiry envC sdKeyed optsOK renvEdge mwEdge req1 pathAB
    (by decide) rfl rfl

/-- Claim C1: when the wrapped driver supplies the edge key, `RedirectURL`
returns the signer's output on `baseURL + key(path)` with expiry
`now + duration` whenever the origin is not classified as eligible for
direct S3 access, and the wrapped driver's own redirect URL whenever it
is. -/
theorem redirectURL_edge_or_origin (env : RequestEnv) (lh : Middleware)
    (r : Request) (p : Str) (keyer : Str → Str)
    (hk : lh.storageDriver.s3BucketKey = some keyer) :
    (env.eligibleForS3 r lh.awsIPs = false →
      RedirectURL env lh r p =
        env.sign lh.urlSigner (lh.baseURL ++ keyer p) (env.now + lh.duration)) ∧
    (env.eligibleForS3 r lh.awsIPs = true →
      RedirectURL env lh r p = lh.storageDriver.redirectURL r p) := by
  constructor <;> intro h <;>
    simp [RedirectURL, hk, h, except_match_id]

/-- Witness for C1: on a concrete keyed middleware, a far origin receives
the signed edge URL and a close origin receives the wrapped driver's
redirect. -/
theorem redirectURL_edge_or_origin_witness :
    mwEdge.storageDriver.s3BucketKey = some idKey ∧
    renvEdge.eligibleForS3 req1 mwEdge.awsIPs = false ∧
    RedirectURL renvEdge mwEdge req1 pathAB =
      renvEdge.sign mwEdge.urlSigner (mwEdge.baseURL ++ idKey pathAB)
        (renvEdge.now + mwEdge.duration) ∧
    renvOrigin.eligibleForS3 req1 mwEdge.awsIPs = true ∧
    RedirectURL renvOrigin mwEdge req1 pathAB =
      mwEdge.storageDriver.redirectURL req1 pathAB :=
  ⟨rfl, rfl, (redirectURL_edge_or_origin renvEdge mwEdge req1 pathAB idKey rfl).1 rfl,
   rfl, (redirectURL_edge_or_origin renvOrigin mwEdge req1 pathAB idKey rfl).2 rfl⟩

/-- Claim C2: without the `S3BucketKeyer` capability, `RedirectURL` always
returns the wrapped driver's own redirect URL, whatever the filtering
configuration and the origin classification. -/
theorem redirectURL_no_keyer (env : RequestEnv) (lh : Middleware)
    (r : Request) (p : Str) (hk : lh.storageDriver.s3BucketKey = none) :
    RedirectURL env lh r p = lh.storageDriver.redirectURL r p := by
  simp [RedirectURL, hk]

/-- Witness for C2: a capability-less driver with a populated range set and
a far origin still gets the wrapped driver's redirect. -/
theorem redirectURL_no_keyer_witness :
    mwNoKey.storageDriver.s3BucketKey = none ∧
    renvEdge.eligibleForS3 req1 mwNoKey.awsIPs = false ∧
    RedirectURL renvEdge mwNoKey req1 pathAB =
      mwNoKey.storageDriver.redirectURL req1 pathAB :=
  ⟨rfl, rfl, redirectURL_no_keyer renvEdge mwNoKey req1 pathAB rfl⟩

/-- Counterexample to claim C3 as stated: with a signer that never fails,
`RedirectURL` nevertheless returns an error — the wrapped driver's own
redirect error, surfaced through the pass-through path. -/
theorem redirectURL_error_not_from_signer :
    RedirectURL renvEdge mwFailing req1 pathAB =
      Except.error (str "origin unavailable") ∧
    signerNeverFails renvEdge :=
  ⟨rfl, fun _ _ _ => rfl⟩

/-- Claim C3 (amended): every error returned by `RedirectURL` is either the
wrapped driver's own redirect error or the signing error, each propagated
unchanged; no other operation yields an error. -/
theorem redirectURL_error_sources (env : RequestEnv) (lh : Middleware)
    (r : Request) (p : Str) (e : GoError)
    (h : RedirectURL env lh r p = .error e) :
    lh.storageDriver.redirectURL r p = Except.error e ∨
    (lh.storageDriver.s3BucketKey.isSome = true ∧
     env.eligibleForS3 r lh.awsIPs = false ∧
     env.sign lh.urlSigner (lh.baseURL ++ middlewareKey lh p)
       (env.now + lh.duration) = Except.error e) := by
  unfold RedirectURL at h
  cases hk : lh.storageDriver.s3BucketKey with
  | none => rw [hk] at h; exact Or.inl h
  | some keyer =>
    rw [hk] at h
    dsimp only at h
    by_cases he : env.eligibleForS3 r lh.awsIPs = true
    · rw [if_pos he] at h
      exact Or.inl h
    · rw [if_neg he] at h
      refine Or.inr ⟨rfl, by simpa using he, ?_⟩
      unfold middlewareKey
      rw [hk]
      rw [except_match_id] at h
      exact h

/-- Witness for C3 (amended): a concrete failing signer produces an error
that is traced back to the signing call. -/
theorem redirectURL_error_sources_witness :
    mwEdge.storageDriver.redirectURL req1 pathAB =
      Except.error (str "sign fail") ∨
    (mwEdge.storageDriver.s3BucketKey.isSome = true ∧
     renvFailSign.eligibleForS3 req1 mwEdge.awsIPs = false ∧
     renvFailSign.sign mwEdge.urlSigner
       (mwEdge.baseURL ++ middlewareKey mwEdge pathAB)
       (renvFailSign.now + mwEdge.duration) = Except.error (str "sign fail")) :=
  redirectURL_error_sources renvFailSign mwEdge req1 pathAB (str "sign fail") rfl

/-- Claim C10: viewed as a storage driver, the middleware delegates every
operation other than `RedirectURL` unchanged to the wrapped driver, and
overrides `RedirectURL` with its own decision logic. -/
theorem middleware_delegates_other_ops (env : RequestEnv) (m : Middleware)
    (op : Str) (args : List Str) (r : Request) (p : Str) :
    (asDriver env m).otherOp op args = m.storageDriver.otherOp op args ∧
    (asDriver env m).s3BucketKey = m.storageDriver.s3BucketKey ∧
    (asDriver env m).redirectURL r p = RedirectURL env m r p :=
  ⟨rfl, rfl, rfl⟩

/-- Inserting a non-`baseurl` binding does not change `parseBaseURL`. -/
theorem parseBaseURL_insert (env : ConstructEnv) (options : Options)
    (k : Str) (v : OptVal) (h : k ≠ str "baseurl") :
    parseBaseURL env (insertOpt options k v) = parseBaseURL env options := by
  unfold parseBaseURL insertOpt
  rw [lookupOpt_cons_ne options (str "baseurl") k v h]

/-- Inserting a non-`privatekey` binding does not change
`parsePrivateKeyPath`. -/
theorem parsePrivateKeyPath_insert (options : Options) (k : Str) (v : OptVal)
    (h : k ≠ str "privatekey") :
    parsePrivateKeyPath (insertOpt options k v) = parsePrivateKeyPath options := by
  unfold parsePrivateKeyPath insertOpt
  rw [lookupOpt_cons_ne options (str "privatekey") k v h]

/-- Inserting a non-`keypairid` binding does not change `parseKeypairID`. -/
theorem parseKeypairID_insert (options : Options) (k : Str) (v : OptVal)
    (h : k ≠ str "keypairid") :
    parseKeypairID (insertOpt options k v) = parseKeypairID options := by
  unfold parseKeypairID insertOpt
  rw [lookupOpt_cons_ne options (str "keypairid") k v h]

/-- Inserting a non-`duration` binding does not change `parseDurationOpt`. -/
theorem parseDurationOpt_insert (env : ConstructEnv) (options : Options)
    (k : Str) (v : OptVal) (h : k ≠ str "duration") :
    parseDurationOpt env (insertOpt options k v) = parseDurationOpt env options := by
  unfold parseDurationOpt insertOpt
  rw [lookupOpt_cons_ne options (str "duration") k v h]

/-- Inserting a non-`iprangesurl` binding does not change
`parseIPRangesURL`. -/
theorem parseIPRangesURL_insert (env : ConstructEnv) (options : Options)
    (k : Str) (v : OptVal) (h : k ≠ str "iprangesurl") :
    parseIPRangesURL env (insertOpt options k v) = parseIPRangesURL env options := by
  unfold parseIPRangesURL insertOpt
  rw [lookupOpt_cons_ne options (str "iprangesurl") k v h]

/-- Inserting a binding for neither `ipfilteredby` nor `awsregion` does not
change `parseIPFilter`. -/
theorem parseIPFilter_insert (env : ConstructEnv) (options : Options)
    (k : Str) (v : OptVal) (h1 : k ≠ str "ipfilteredby")
    (h2 : k ≠ str "awsregion") (uf : Int) (urlR : Str) :
    parseIPFilter env (insertOpt options k v) uf urlR =
      parseIPFilter env options uf urlR := by
  unfold parseIPFilter insertOpt
  rw [lookupOpt_cons_ne options (str "ipfilteredby") k v h1,
    lookupOpt_cons_ne options (str "awsregion") k v h2]

/-- With the legacy `updatefrenquency` key present, the update-frequency
phase warns and computes the same interval as with the value bound to
`updatefrequency`. -/
theorem parseUpdateFrequency_legacy (env : ConstructEnv) (options : Options)
    (v : OptVal) (h : lookupOpt options (str "updatefrenquency") = some v) :
    parseUpdateFrequency env options =
      (true, (parseUpdateFrequency env
        (insertOpt options (str "updatefrequency") v)).2) := by
  have hne : (str "updatefrequency" : Str) ≠ str "updatefrenquency" := by decide
  simp only [parseUpdateFrequency, insertOpt, h, lookupOpt_cons_ne _ _ _ _ hne,
    lookupOpt_cons_self, Option.isSome_some]

/-- Claim C7: an options map carrying the legacy misspelled
`updatefrenquency` key constructs exactly the middleware obtained by
binding the same value to the correctly spelled `updatefrequency` key, and
the deprecation warning fires. -/
theorem legacy_update_key_honored (env : ConstructEnv) (sd : StorageDriver)
    (options : Options) (v : OptVal)
    (h : lookupOpt options (str "updatefrenquency") = some v) :
    newCloudFrontStorageMiddleware env sd options =
      newCloudFrontStorageMiddleware env sd
        (insertOpt options (str "updatefrequency") v) ∧
    (parseUpdateFrequency env options).1 = true := by
  constructor
  · have e0 : (parseUpdateFrequency env
        (insertOpt options (str "updatefrequency") v)).2 =
        (parseUpdateFrequency env options).2 := by
      rw [parseUpdateFrequency_legacy env options v h]
    simp only [newCloudFrontStorageMiddleware,
      parseBaseURL_insert env options (str "updatefrequency") v (by decide),
      parsePrivateKeyPath_insert options (str "updatefrequency") v (by decide),
      parseKeypairID_insert options (str "updatefrequency") v (by decide),
      parseDurationOpt_insert env options (str "updatefrequency") v (by decide),
      parseIPRangesURL_insert env options (str "updatefrequency") v (by decide),
      parseIPFilter_insert env options (str "updatefrequency") v (by decide) (by decide),
      e0]
  · rw [parseUpdateFrequency_legacy env options v h]

/-- An options map carrying the legacy misspelled update-frequency key. -/
def opts7 : Options :=
  [(str "baseurl", .str (str "cf.example.com")),
   (str "privatekey", .str (str "/etc/cf/key.pem")),
   (str "keypairid", .str (str "KEYPAIR")),
   (str "updatefrenquency", .str (str "30m"))]

/-- Witness for C7: with the legacy key bound to `"30m"`, construction
equals construction with `updatefrequency = "30m"` and the warning
fires. -/
theorem legacy_update_key_honored_witness :
    newCloudFrontStorageMiddleware envC sdKeyed opts7 =
      newCloudFrontStorageMiddleware envC sdKeyed
        (insertOpt opts7 (str "updatefrequency") (.str (str "30m"))) ∧
    (parseUpdateFrequency envC opts7).1 = true :=
  legacy_update_key_honored envC sdKeyed opts7 (.str (str "30m")) (by decide)

/-- Claim C9: when both spellings are present, the legacy misspelled key's
value is what determines the refresh interval — the phase computes the
same interval as a map binding the legacy value to the correct key
alone. -/
theorem legacy_key_overwrites (env : ConstructEnv) (options : Options)
    (v w : OptVal)
    (hleg : lookupOpt options (str "updatefrenquency") = some v)
    (_hcor : lookupOpt options (str "updatefrequency") = some w) :
    (parseUpdateFrequency env options).2 =
      (parseUpdateFrequency env [(str "updatefrequency", v)]).2 := by
  have h2 : lookupOpt [((str "updatefrequency" : Str), v)]
      (str "updatefrenquency") = none := by
    rw [lookupOpt_cons_ne _ _ _ _ (by decide)]
    rfl
  have h3 : lookupOpt [((str "updatefrequency" : Str), v)]
      (str "updatefrequency") = some v := lookupOpt_cons_self _ _ _
  simp only [parseUpdateFrequency, insertOpt, hleg, h2, h3, lookupOpt_cons_self]

/-- An unrecognized `ipfilteredby` string makes `parseIPFilter` fail. -/
theorem parseIPFilter_invalid (env : ConstructEnv) (options : Options)
    (uf : Int) (urlR : Str) (s : Str)
    (hl : lookupOpt options (str "ipfilteredby") = some (.str s))
    (h1 : toLowerStr (trimSpace s) ≠ str "")
    (h2 : toLowerStr (trimSpace s) ≠ str "none")
    (h3 : toLowerStr (trimSpace s) ≠ str "aws")
    (h4 : toLowerStr (trimSpace s) ≠ str "awsregion") :
    isErr (parseIPFilter env options uf urlR) = true := by
  unfold parseIPFilter
  rw [hl]
  dsimp only
  have hv : ¬(toLowerStr (trimSpace s) = str "" ∨
      toLowerStr (trimSpace s) = str "none") := by
    rintro (hh | hh)
    exacts [h1 hh, h2 hh]
  rw [if_neg hv, if_neg h3, if_neg h4]
  rfl

/-- A non-string `ipfilteredby` value makes `parseIPFilter` fail. -/
theorem parseIPFilter_nonstring (env : ConstructEnv) (options : Options)
    (uf : Int) (urlR : Str)
    (h : isNonStringOpt options (str "ipfilteredby") = true) :
    isErr (parseIPFilter env options uf urlR) = true := by
  unfold isNonStringOpt at h
  unfold parseIPFilter
  cases hl : lookupOpt options (str "ipfilteredby") with
  | none => rw [hl] at h; simp at h
  | some v =>
    rw [hl] at h
    cases v with
    | str s => simp at h
    | dur d => rfl
    | other => rfl

/-- Selecting `awsregion` filtering with the `awsregion` option absent or
non-string makes `parseIPFilter` fail. -/
theorem parseIPFilter_region_missing (env : ConstructEnv) (options : Options)
    (uf : Int) (urlR : Str) (s : Str)
    (hl : lookupOpt options (str "ipfilteredby") = some (.str s))
    (hv : toLowerStr (trimSpace s) = str "awsregion")
    (hr : isStringOpt options (str "awsregion") = false) :
    isErr (parseIPFilter env options uf urlR) = true := by
  unfold parseIPFilter
  rw [hl]
  dsimp only
  rw [hv, if_neg (by decide), if_neg (by decide), if_pos rfl]
  unfold isStringOpt at hr
  cases hreg : lookupOpt options (str "awsregion") with
  | none => rfl
  | some v =>
    rw [hreg] at hr
    cases v with
    | str s2 => simp at hr
    | dur d => rfl
    | other => rfl

/-- With `ipfilteredby` absent, filtering is disabled. -/
theorem parseIPFilter_absent (env : ConstructEnv) (options : Options)
    (uf : Int) (urlR : Str)
    (h : lookupOpt options (str "ipfilteredby") = none) :
    parseIPFilter env options uf urlR = .ok none := by
  unfold parseIPFilter
  rw [h]

/-- With `ipfilteredby` selecting the empty string or `none`, filtering is
disabled. -/
theorem parseIPFilter_off (env : ConstructEnv) (options : Options)
    (uf : Int) (urlR : Str) (s : Str)
    (hl : lookupOpt options (str "ipfilteredby") = some (.str s))
    (hv : toLowerStr (trimSpace s) = str "" ∨
      toLowerStr (trimSpace s) = str "none") :
    parseIPFilter env options uf urlR = .ok none := by
  unfold parseIPFilter
  rw [hl]
  dsimp only
  rw [if_pos hv]

/-- Claim C8: the `ipfilteredby` option, trimmed and lowercased, must be
one of `""`, `none`, `aws`, `awsregion` — any other string and any
non-string value fails construction; selecting `awsregion` without a
string-valued `awsregion` option fails construction; and when the option
is absent or selects `none`, no range set is created. -/
theorem ipfilteredby_validated (env : ConstructEnv) (sd : StorageDriver)
    (options : Options) (s : Str) :
    ((lookupOpt options (str "ipfilteredby") = some (.str s) ∧
      toLowerStr (trimSpace s) ≠ str "" ∧
      toLowerStr (trimSpace s) ≠ str "none" ∧
      toLowerStr (trimSpace s) ≠ str "aws" ∧
      toLowerStr (trimSpace s) ≠ str "awsregion") →
      isErr (newCloudFrontStorageMiddleware env sd options) = true) ∧
    (isNonStringOpt options (str "ipfilteredby") = true →
      isErr (newCloudFrontStorageMiddleware env sd options) = true) ∧
    ((lookupOpt options (str "ipfilteredby") = some (.str s) ∧
      toLowerStr (trimSpace s) = str "awsregion" ∧
      isStringOpt options (str "awsregion") = false) →
      isErr (newCloudFrontStorageMiddleware env sd options) = true) ∧
    ((lookupOpt options (str "ipfilteredby") = none ∨
      (lookupOpt options (str "ipfilteredby") = some (.str s) ∧
       (toLowerStr (trimSpace s) = str "" ∨
        toLowerStr (trimSpace s) = str "none"))) →
      isErr (newCloudFrontStorageMiddleware env sd options) = true ∨
      resultAWSIPs (newCloudFrontStorageMiddleware env sd options) = some none) := by
  refine ⟨fun ⟨hl, h1, h2, h3, h4⟩ => ?_, fun h => ?_, fun ⟨hl, hv, hr⟩ => ?_,
    fun h => ?_⟩
  · cases hb : newCloudFrontStorageMiddleware env sd options with
    | error e => rfl
    | ok m =>
      exfalso
      obtain ⟨-, -, -, pkPath, keypairID, uf, urlR, -, -, -, -, hip⟩ :=
        build_ok_fields env sd options m hb
      have := parseIPFilter_invalid env options uf urlR s hl h1 h2 h3 h4
      rw [hip] at this
      exact Bool.noConfusion this
  · cases hb : newCloudFrontStorageMiddleware env sd options with
    | error e => rfl
    | ok m =>
      exfalso
      obtain ⟨-, -, -, pkPath, keypairID, uf, urlR, -, -, -, -, hip⟩ :=
        build_ok_fields env sd options m hb
      have := parseIPFilter_nonstring env options uf urlR h
      rw [hip] at this
      exact Bool.noConfusion this
  · cases hb : newCloudFrontStorageMiddleware env sd options with
    | error e => rfl
    | ok m =>
      exfalso
      obtain ⟨-, -, -, pkPath, keypairID, uf, urlR, -, -, -, -, hip⟩ :=
        build_ok_fields env sd options m hb
      have := parseIPFilter_region_missing env options uf urlR s hl hv hr
      rw [hip] at this
      exact Bool.noConfusion this
  · cases hb : newCloudFrontStorageMiddleware env sd options with
    | error e => exact Or.inl rfl
    | ok m =>
      right
      obtain ⟨-, -, -, pkPath, keypairID, uf, urlR, -, -, -, -, hip⟩ :=
        build_ok_fields env sd options m hb
      have hoff : parseIPFilter env options uf urlR = .ok none := by
        rcases h with h | ⟨hl, hv⟩
        · exact parseIPFilter_absent env options uf urlR h
        · exact parseIPFilter_off env options uf urlR s hl hv
      rw [hoff] at hip
      injection hip with h'
      show some m.awsIPs = some none
      rw [h']

/-- An options map with an unrecognized `ipfilteredby` value. -/
def opts8a : Options :=
  (str "ipfilteredby", .str (str "bogus")) :: optsOK

/-- An options map with a non-string `ipfilteredby` value. -/
def opts8b : Options :=
  (str "ipfilteredby", .dur 3) :: optsOK

/-- An options map selecting region filtering without an `awsregion`
option. -/
def opts8c : Options :=
  (str "ipfilteredby", .str (str " AWSRegion ")) :: optsOK

/-- An options map disabling filtering explicitly. -/
def opts8d : Options :=
  (str "ipfilteredby", .str (str "None")) :: optsOK

/-- Witness for C8: a bogus value, a non-string value and a region
selection without regions each fail construction, and `None` yields a
middleware without a range set. -/
theorem ipfilteredby_validated_witness :
    isErr (newCloudFrontStorageMiddleware envC sdKeyed opts8a) = true ∧
    isErr (newCloudFrontStorageMiddleware envC sdKeyed opts8b) = true ∧
    isErr (newCloudFrontStorageMiddleware envC sdKeyed opts8c) = true ∧
    (isErr (newCloudFrontStorageMiddleware envC sdKeyed opts8d) = true ∨
     resultAWSIPs (newCloudFrontStorageMiddleware envC sdKeyed opts8d) =
       some none) :=
  ⟨(ipfilteredby_validated envC sdKeyed opts8a (str "bogus")).1
     ⟨by decide, by decide, by decide, by decide, by decide⟩,
   (ipfilteredby_validated envC sdKeyed opts8b (str "bogus")).2.1 (by decide),
   (ipfilteredby_validated envC sdKeyed opts8c (str " AWSRegion ")).2.2.1
     ⟨by decide, by decide, by decide⟩,
   (ipfilteredby_validated envC sdKeyed opts8d (str "None")).2.2.2
     (Or.inr ⟨by decide, Or.inr (by decide)⟩)⟩

/-- An options map with both update-frequency spellings bound to different
values. -/
def opts9 : Options :=
  [(str "updatefrequency", .dur (5 * minuteNs)),
   (str "updatefrenquency", .dur (9 * minuteNs))]

/-- Witness for C9: with `updatefrequency = 5min` and the legacy key bound
to `9min`, the phase computes the interval of the legacy value. -/
theorem legacy_key_overwrites_witness :
    (parseUpdateFrequency envC opts9).2 =
      (parseUpdateFrequency envC [(str "updatefrequency", .dur (9 * minuteNs))]).2 :=
  legacy_key_overwrites envC opts9 (.dur (9 * minuteNs)) (.dur (5 * minuteNs))
    (by decide) (by decide)

end CloudFront
